import Mathlib

/-!
# Box Flipper — shallow embedding of the combat core

This file embeds the gameplay core of `src/box_flipper.c` (a boxing
minigame for the Flipper Zero) in Lean 4 and proves the spec's claims
about it.

Modelling conventions:
* `now_ms()` (the monotone millisecond clock) is passed explicitly as a
  `Nat` argument `now` to every function that reads it in C; within one
  C function all `now_ms()` calls happen in the same instant, so one
  parameter suffices.
* `rand()` draws are passed explicitly (the `AiRand` record), one field
  per draw an execution of `enemy_ai_step` can consume; the `%` / `& 1`
  reductions are applied in the body exactly as in C.
* `uint8_t` hit points and `uint32_t` timestamps become `Nat` (the code's
  explicit saturating subtraction is kept verbatim); `int16_t` ring
  coordinates become `Int` (all arithmetic stays far from the 16-bit
  range, so no wraparound is modelled).
* The banner strings passed to `set_msg` become the enumeration `Msg`
  (rendering-only data; only their identity matters to the spec).
* `app->bosses[3]` is written only by `init_bosses`, always with the same
  immutable table, so it is modelled as the closed function `bosses`
  (index `≥ 2` reads the last record, as `boss_index` stays in `0..2`).
* Rendering (`app_draw`, sprites), the input queue and process lifecycle
  are outside the combat core and are not modelled; the main loop's
  per-iteration mutations are modelled by the operations `Op` and the
  step function `appStep`.
-/

namespace BoxFlipper

/-! ## Constants (`#define`s of box_flipper.c) -/

def SCREEN_W : Int := 128
def RING_TOP : Int := 10
def RING_BOTTOM : Int := 58
def RING_LEFT : Int := 6
def RING_RIGHT : Int := 121
def FIGHTER_W : Int := 16
def FIGHTER_H : Int := 24
def PLAYER_Y : Int := RING_BOTTOM - FIGHTER_H - 2
def ENEMY_Y : Int := RING_TOP + 6
def FRAME_MS : Nat := 33
def HIT_STUN_MS : Nat := 260
def PLAYER_DODGE_OFFSET : Int := 20
def ENEMY_SHUFFLE_RANGE : Int := 5
def ENEMY_SHUFFLE_STEP : Int := 1
def MAX_HP : Nat := 10
def PUNCH_RANGE : Int := 16
def MSG_MS : Nat := 2000

/-! ## Data model -/

inductive FighterState where
  | Idle
  | Telegraph
  | Punching
  | HitStun
  | Dodging
  | KO
deriving DecidableEq, Repr

structure Fighter where
  x : Int
  y : Int
  home_x : Int
  state : FighterState
  state_until_ms : Nat
  hp : Nat
  max_hp : Nat
  flash : Bool
  flash_next_ms : Nat
  dodge_dir : Int
  pending_punch : Bool
deriving DecidableEq, Repr

/-- `BossDef` without the rendering-only `name` string. -/
structure BossDef where
  enemy_hp : Nat
  telegraph_ms : Nat
  punch_ms : Nat
  vulnerable_ms : Nat
  ai_base_delay : Nat
  ai_rand_delay : Nat
  punch_chance_near : Nat
  punch_chance_far : Nat
  player_damage : Nat
  telegraph_hittable : Bool
deriving DecidableEq, Repr

/-- The banner strings handed to `set_msg`, as an enumeration. -/
inductive Msg where
  | noMsg
  | boss1
  | boss2
  | finalBoss
  | nextBoss
  | openBanner
  | hitBanner
  | youLose
  | blockBanner
  | goodBanner
  | bossDown
  | youWin
  | dodgePunch
deriving DecidableEq, Repr

/-- The gameplay-relevant fields of the C `App` struct. -/
structure App where
  player : Fighter
  enemy : Fighter
  boss_index : Nat
  enemy_vulnerable_until_ms : Nat
  enemy_next_action_ms : Nat
  enemy_next_shuffle_ms : Nat
  show_msg : Bool
  msg_until_ms : Nat
  msg : Msg
deriving DecidableEq, Repr

/-! ## Helpers (lines 127-145, 193-195 of box_flipper.c) -/

def abs16 (v : Int) : Int := if v < 0 then -v else v

/-- `clamp_i16`: the two sequential `if`s of the C function. -/
def clamp_i16 (v lo hi : Int) : Int :=
  let v1 := if v < lo then lo else v
  if v1 > hi then hi else v1

def set_msg (a : App) (m : Msg) (duration_ms now : Nat) : App :=
  { a with show_msg := true, msg := m, msg_until_ms := now + duration_ms }

def fighter_set_state (f : Fighter) (st : FighterState) (duration_ms now : Nat) :
    Fighter :=
  { f with state := st, state_until_ms := now + duration_ms }

/-- `fighter_update_state` (lines 147-166). -/
def fighter_update_state (f : Fighter) (now : Nat) : Fighter :=
  if f.state = FighterState.KO then f
  else
    let f1 := if f.state = FighterState.Telegraph ∧ now ≥ f.flash_next_ms then
        { f with flash := !f.flash, flash_next_ms := now + 80 }
      else f
    if f1.state ≠ FighterState.Idle ∧ now ≥ f1.state_until_ms then
      let f2 := if f1.state = FighterState.Dodging then { f1 with x := f1.home_x } else f1
      { f2 with state := FighterState.Idle }
    else f1

def enemy_is_vulnerable (a : App) (now : Nat) : Bool :=
  now < a.enemy_vulnerable_until_ms

/-! ## Boss catalog (`init_bosses`, lines 422-467) -/

def bosses : Nat → BossDef
  | 0 =>
    { enemy_hp := 6, telegraph_ms := 700, punch_ms := 320, vulnerable_ms := 1200,
      ai_base_delay := 900, ai_rand_delay := 800, punch_chance_near := 40,
      punch_chance_far := 8, player_damage := 2, telegraph_hittable := true }
  | 1 =>
    { enemy_hp := 8, telegraph_ms := 520, punch_ms := 260, vulnerable_ms := 900,
      ai_base_delay := 700, ai_rand_delay := 650, punch_chance_near := 55,
      punch_chance_far := 14, player_damage := 2, telegraph_hittable := true }
  | _ =>
    { enemy_hp := 10, telegraph_ms := 260, punch_ms := 220, vulnerable_ms := 520,
      ai_base_delay := 550, ai_rand_delay := 500, punch_chance_near := 78,
      punch_chance_far := 22, player_damage := 1, telegraph_hittable := false }

/-! ## Boss start and progression (lines 469-552) -/

/-- The player fighter exactly as the `reset_player_hp` block of
`start_boss` (lines 474-485) rewrites it; `home = SCREEN_W/2 - FIGHTER_W/2
= 56`. -/
def player_reset (now : Nat) : Fighter :=
  { x := SCREEN_W / 2 - FIGHTER_W / 2, y := PLAYER_Y,
    home_x := SCREEN_W / 2 - FIGHTER_W / 2,
    state := FighterState.Idle, state_until_ms := now + 0,
    hp := MAX_HP, max_hp := MAX_HP,
    flash := false, flash_next_ms := now + 60,
    dodge_dir := 0, pending_punch := false }

/-- The enemy fighter exactly as `start_boss` (lines 487-496) rewrites it
for boss `idx`. -/
def enemy_reset (idx now : Nat) : Fighter :=
  { x := SCREEN_W / 2 - FIGHTER_W / 2, y := ENEMY_Y,
    home_x := SCREEN_W / 2 - FIGHTER_W / 2,
    state := FighterState.Idle, state_until_ms := now + 0,
    hp := (bosses idx).enemy_hp, max_hp := (bosses idx).enemy_hp,
    flash := false, flash_next_ms := now + 60,
    dodge_dir := 0, pending_punch := false }

/-- `start_boss` (lines 469-509). -/
def start_boss (a : App) (idx : Nat) (reset_player_hp : Bool) (now : Nat) : App :=
  let a1 :=
    if reset_player_hp then { a with player := player_reset now } else a
  let a2 :=
    { a1 with
      enemy := enemy_reset idx now,
      enemy_vulnerable_until_ms := 0,
      enemy_next_action_ms := now + 700,
      enemy_next_shuffle_ms := now + 450,
      show_msg := false, msg := Msg.noMsg }
  if idx = 0 then set_msg a2 Msg.boss1 700 now
  else if idx = 1 then set_msg a2 Msg.boss2 700 now
  else set_msg a2 Msg.finalBoss 700 now

/-- `advance_boss_or_win` (lines 544-552). -/
def advance_boss_or_win (a : App) (now : Nat) : App :=
  if a.boss_index < 2 then
    let a1 := { a with boss_index := a.boss_index + 1 }
    let a2 := set_msg a1 Msg.nextBoss 700 now
    start_boss a2 a2.boss_index true now
  else set_msg a Msg.youWin MSG_MS now

/-! ## Combat resolver (lines 511-542, 554-618) -/

/-- `do_enemy_punch` (lines 511-542). -/
def do_enemy_punch (a : App) (now : Nat) : App :=
  if a.player.state = FighterState.KO then a
  else if a.enemy.state = FighterState.KO then a
  else if a.enemy.state ≠ FighterState.Idle then a
  else
    let b := bosses a.boss_index
    let a1 := { a with enemy := fighter_set_state a.enemy FighterState.Punching b.punch_ms now }
    let dx := abs16 ((a1.player.x + FIGHTER_W / 2) - (a1.enemy.x + FIGHTER_W / 2))
    if a1.player.state = FighterState.Dodging then
      set_msg { a1 with enemy_vulnerable_until_ms := now + b.vulnerable_ms }
        Msg.openBanner 350 now
    else if dx ≤ PUNCH_RANGE ∧ a1.player.state ≠ FighterState.HitStun then
      let dmg : Nat := 1
      let p1 := { a1.player with hp := if a1.player.hp > dmg then a1.player.hp - dmg else 0 }
      let a2 := { a1 with player := fighter_set_state p1 FighterState.HitStun HIT_STUN_MS now }
      let a3 := set_msg a2 Msg.hitBanner 350 now
      if a3.player.hp = 0 then
        set_msg { a3 with player := { a3.player with state := FighterState.KO } }
          Msg.youLose MSG_MS now
      else a3
    else a1

/-- `player_can_hit_enemy_now` (lines 554-559). -/
def player_can_hit_enemy_now (a : App) (now : Nat) : Bool :=
  enemy_is_vulnerable a now ||
    ((bosses a.boss_index).telegraph_hittable && a.enemy.state == FighterState.Telegraph)

/-- `do_player_punch` (lines 561-602). -/
def do_player_punch (a : App) (now : Nat) : App :=
  if a.player.state = FighterState.KO then a
  else if a.enemy.state = FighterState.KO then a
  else if a.player.state ≠ FighterState.Idle then a
  else
    let b := bosses a.boss_index
    let a1 := { a with player := fighter_set_state a.player FighterState.Punching b.punch_ms now }
    let dx := abs16 ((a1.player.x + FIGHTER_W / 2) - (a1.enemy.x + FIGHTER_W / 2))
    if dx > PUNCH_RANGE then a1
    else if ¬ player_can_hit_enemy_now a1 now then set_msg a1 Msg.blockBanner 240 now
    else if a1.enemy.state ≠ FighterState.KO ∧ a1.enemy.state ≠ FighterState.HitStun then
      let dmg := b.player_damage
      let e1 := { a1.enemy with hp := if a1.enemy.hp > dmg then a1.enemy.hp - dmg else 0 }
      let e2 := if b.telegraph_hittable ∧ a1.enemy.state = FighterState.Telegraph then
          { e1 with pending_punch := false }
        else e1
      let a2 := { a1 with
        enemy := fighter_set_state e2 FighterState.HitStun HIT_STUN_MS now,
        enemy_vulnerable_until_ms := 0 }
      let a3 := set_msg a2 Msg.goodBanner 300 now
      if a3.enemy.hp = 0 then
        advance_boss_or_win
          (set_msg { a3 with enemy := { a3.enemy with state := FighterState.KO } }
            Msg.bossDown 800 now) now
      else a3
    else a1

/-- `start_player_dodge` (lines 604-618). -/
def start_player_dodge (a : App) (dir : Int) (now : Nat) : App :=
  if a.player.state = FighterState.KO then a
  else if a.enemy.state = FighterState.KO then a
  else if a.player.state ≠ FighterState.Idle then a
  else
    let p1 := { a.player with dodge_dir := dir }
    let target := p1.home_x + dir * PLAYER_DODGE_OFFSET
    let p2 := { p1 with x := clamp_i16 target (RING_LEFT + 3) (RING_RIGHT - 3 - FIGHTER_W) }
    let dodge_ms : Nat := 220
    { a with player := fighter_set_state p2 FighterState.Dodging dodge_ms now }

/-! ## Enemy AI scheduler (`enemy_ai_step`, lines 620-663) -/

/-- The `rand()` draws one execution of `enemy_ai_step` can consume, in
C order: `gate` for `rand() % 4`, `dir` for `rand() & 1`, `shuffleDelay`
for `rand() % 400`, `roll` for `rand() % 100`, `delay` for the single
post-roll draw (`% ai_rand_delay` on success, `% 500` on failure). -/
structure AiRand where
  gate : Nat
  dir : Nat
  shuffleDelay : Nat
  roll : Nat
  delay : Nat
deriving DecidableEq, Repr

/-- The shuffle block of `enemy_ai_step` (lines 627-639): random cosmetic
sidestep while idle, plus the shuffle-timer reschedule. -/
def enemy_shuffle (a : App) (now : Nat) (r : AiRand) : App :=
  if a.enemy.state = FighterState.Idle ∧ now ≥ a.enemy_next_shuffle_ms then
    let aS :=
      if r.gate % 4 = 0 then
        let step : Int := if r.dir % 2 = 1 then ENEMY_SHUFFLE_STEP else -ENEMY_SHUFFLE_STEP
        let newx := a.enemy.x + step
        let newx1 := if newx < a.enemy.home_x - ENEMY_SHUFFLE_RANGE then
            a.enemy.home_x - ENEMY_SHUFFLE_RANGE else newx
        let newx2 := if newx1 > a.enemy.home_x + ENEMY_SHUFFLE_RANGE then
            a.enemy.home_x + ENEMY_SHUFFLE_RANGE else newx1
        { a with enemy := { a.enemy with
            x := clamp_i16 newx2 (RING_LEFT + 3) (RING_RIGHT - 3 - FIGHTER_W) } }
      else a
    { aS with enemy_next_shuffle_ms := now + 350 + r.shuffleDelay % 400 }
  else a

def enemy_ai_step (a : App) (now : Nat) (r : AiRand) : App :=
  if a.enemy.state = FighterState.KO ∨ a.player.state = FighterState.KO then a
  else
    let b := bosses a.boss_index
    let a1 := enemy_shuffle a now r
    if now < a1.enemy_next_action_ms then a1
    else if a1.enemy.state = FighterState.Idle then
      let dx := abs16 ((a1.player.x + FIGHTER_W / 2) - (a1.enemy.x + FIGHTER_W / 2))
      let punch_roll := r.roll % 100
      let near := dx ≤ PUNCH_RANGE + 2
      let should_punch :=
        if near then punch_roll < b.punch_chance_near else punch_roll < b.punch_chance_far
      if should_punch then
        let e1 := { a1.enemy with
          flash := false
          flash_next_ms := now + 80
          pending_punch := true }
        { a1 with
          enemy := fighter_set_state e1 FighterState.Telegraph b.telegraph_ms now,
          enemy_next_action_ms := now + b.telegraph_ms + b.ai_base_delay + r.delay % b.ai_rand_delay }
      else { a1 with enemy_next_action_ms := now + 300 + r.delay % 500 }
    else a1

/-! ## Session controller (`reset_game` line 665-670, main loop 700-752) -/

/-- `reset_game` (lines 665-670): `init_bosses` rewrites the immutable
table (a no-op in the model), the boss index returns to 0, `start_boss`
runs with `reset_player_hp = true`, and the tutorial banner shows. -/
def reset_game (a : App) (now : Nat) : App :=
  set_msg (start_boss { a with boss_index := 0 } 0 true now) Msg.dodgePunch 900 now

/-- Lines 730-731 of the main loop: advance both fighters' state machines. -/
def tick_fighters (a : App) (now : Nat) : App :=
  { a with
    player := fighter_update_state a.player now,
    enemy := fighter_update_state a.enemy now }

/-- Lines 733-737 of the main loop: if the telegraph expired (enemy back to
`Idle` with a pending punch), clear the flag and execute the punch. -/
def tick_resolve (a : App) (now : Nat) : App :=
  if a.enemy.pending_punch ∧ a.enemy.state = FighterState.Idle then
    do_enemy_punch { a with enemy := { a.enemy with pending_punch := false } } now
  else a

/-- Lines 739-741 of the main loop: expire the banner. -/
def tick_msg (a : App) (now : Nat) : App :=
  if a.show_msg ∧ now ≥ a.msg_until_ms then { a with show_msg := false } else a

/-- One pass of the per-frame mutations of the main loop (lines 730-741). -/
def tick_step (a : App) (now : Nat) : App :=
  tick_msg (tick_resolve (tick_fighters a now) now) now

/-- The discrete operations the main loop applies to the `App` state:
short key presses (lines 710-727), the per-frame update block
(lines 730-741) and the AI scheduler call (line 743), each carrying the
clock value (and random draws) it observes. -/
inductive Op where
  | keyOk (now : Nat)
  | keyLeft (now : Nat)
  | keyRight (now : Nat)
  | tick (now : Nat)
  | ai (now : Nat) (r : AiRand)
deriving DecidableEq, Repr

def appStep (a : App) : Op → App
  | Op.keyOk now =>
    if a.player.state = FighterState.KO then reset_game a now else do_player_punch a now
  | Op.keyLeft now => start_player_dodge a (-1) now
  | Op.keyRight now => start_player_dodge a 1 now
  | Op.tick now => tick_step a now
  | Op.ai now r => enemy_ai_step a now r

/-- Running a sequence of main-loop operations. -/
def appRun (a : App) (ops : List Op) : App := ops.foldl appStep a

/-! ## Concrete states used as witnesses -/

/-- The player fighter exactly as `start_boss` resets it at time 0. -/
def fIdle : Fighter :=
  { x := 56, y := PLAYER_Y, home_x := 56, state := FighterState.Idle,
    state_until_ms := 0, hp := 10, max_hp := 10, flash := false,
    flash_next_ms := 60, dodge_dir := 0, pending_punch := false }

/-- The boss-1 enemy fighter as `start_boss` resets it at time 0. -/
def eIdle : Fighter :=
  { x := 56, y := ENEMY_Y, home_x := 56, state := FighterState.Idle,
    state_until_ms := 0, hp := 6, max_hp := 6, flash := false,
    flash_next_ms := 60, dodge_dir := 0, pending_punch := false }

/-- A boss-1 match state with both fighters idle at home. -/
def app0 : App :=
  { player := fIdle, enemy := eIdle, boss_index := 0,
    enemy_vulnerable_until_ms := 0, enemy_next_action_ms := 700,
    enemy_next_shuffle_ms := 450, show_msg := false, msg_until_ms := 0,
    msg := Msg.noMsg }

/-- A match state in which the player has just been KO'd on boss 1. -/
def appKO : App :=
  { app0 with player := { fIdle with state := FighterState.KO, hp := 0 } }

/-- A boss-1 state with a wounded player (HP 3). -/
def appC1 : App := { app0 with player := { fIdle with hp := 3 } }

/-- A boss-1 state with the enemy at 1 HP and an open vulnerability
window, so an immediate player punch KOs the boss. -/
def appC6 : App :=
  { app0 with enemy := { eIdle with hp := 1 }, enemy_vulnerable_until_ms := 1000 }

/-- A post-victory state: final boss KO'd, player alive. -/
def appWin : App :=
  { app0 with
    boss_index := 2,
    enemy := { eIdle with state := FighterState.KO, hp := 0, max_hp := 10 },
    msg := Msg.youWin, show_msg := true, msg_until_ms := 2000 }

/-- A boss-1 state with an open vulnerability window on the enemy. -/
def appC4 : App := { app0 with enemy_vulnerable_until_ms := 1000 }

/-- A boss-1 state with the enemy mid-telegraph and no window open
(boss 1 has `telegraph_hittable = true`). -/
def appC4T : App :=
  { app0 with enemy :=
    { eIdle with
      state := FighterState.Telegraph
      state_until_ms := 700
      pending_punch := true } }

/-- A boss-1 state in which the player is mid-dodge. -/
def appC5 : App :=
  { app0 with player :=
    { fIdle with
      state := FighterState.Dodging
      state_until_ms := 220
      x := 36
      dodge_dir := -1 } }

/-- A boss-1 state whose AI action timer is due (shuffle timer far off). -/
def appC8 : App :=
  { app0 with enemy_next_action_ms := 100, enemy_next_shuffle_ms := 100000 }

/-! ## Shared invariants and helper lemmas -/

/-- `0 ≤ hp` is inherent to `Nat`; the substantive half is `hp ≤ max_hp`. -/
def hpInv (a : App) : Prop :=
  a.player.hp ≤ a.player.max_hp ∧ a.enemy.hp ≤ a.enemy.max_hp

instance (a : App) : Decidable (hpInv a) := by unfold hpInv; infer_instance

lemma bosses_player_damage_pos (i : Nat) : 0 < (bosses i).player_damage := by
  rcases i with _ | _ | i <;> simp [bosses]

lemma fighter_update_state_hp (f : Fighter) (now : Nat) :
    (fighter_update_state f now).hp = f.hp := by
  simp only [fighter_update_state]
  split_ifs <;> rfl

lemma fighter_update_state_max_hp (f : Fighter) (now : Nat) :
    (fighter_update_state f now).max_hp = f.max_hp := by
  simp only [fighter_update_state]
  split_ifs <;> rfl

/-! ### Field-effect lemmas for the small state writers -/

section FieldLemmas

variable (a : App) (f : Fighter) (st : FighterState) (m : Msg)
variable (d now idx : Nat) (rp : Bool)

@[simp] lemma set_msg_player : (set_msg a m d now).player = a.player := rfl
@[simp] lemma set_msg_enemy : (set_msg a m d now).enemy = a.enemy := rfl
@[simp] lemma set_msg_boss_index : (set_msg a m d now).boss_index = a.boss_index := rfl
@[simp] lemma set_msg_vuln :
    (set_msg a m d now).enemy_vulnerable_until_ms = a.enemy_vulnerable_until_ms := rfl
@[simp] lemma set_msg_next_action :
    (set_msg a m d now).enemy_next_action_ms = a.enemy_next_action_ms := rfl
@[simp] lemma set_msg_next_shuffle :
    (set_msg a m d now).enemy_next_shuffle_ms = a.enemy_next_shuffle_ms := rfl
@[simp] lemma set_msg_msg : (set_msg a m d now).msg = m := rfl
@[simp] lemma set_msg_show_msg : (set_msg a m d now).show_msg = true := rfl
@[simp] lemma set_msg_msg_until : (set_msg a m d now).msg_until_ms = now + d := rfl

@[simp] lemma fighter_set_state_x : (fighter_set_state f st d now).x = f.x := rfl
@[simp] lemma fighter_set_state_y : (fighter_set_state f st d now).y = f.y := rfl
@[simp] lemma fighter_set_state_home_x : (fighter_set_state f st d now).home_x = f.home_x := rfl
@[simp] lemma fighter_set_state_hp : (fighter_set_state f st d now).hp = f.hp := rfl
@[simp] lemma fighter_set_state_max_hp : (fighter_set_state f st d now).max_hp = f.max_hp := rfl
@[simp] lemma fighter_set_state_flash : (fighter_set_state f st d now).flash = f.flash := rfl
@[simp] lemma fighter_set_state_flash_next :
    (fighter_set_state f st d now).flash_next_ms = f.flash_next_ms := rfl
@[simp] lemma fighter_set_state_dodge_dir :
    (fighter_set_state f st d now).dodge_dir = f.dodge_dir := rfl
@[simp] lemma fighter_set_state_pending :
    (fighter_set_state f st d now).pending_punch = f.pending_punch := rfl
@[simp] lemma fighter_set_state_state : (fighter_set_state f st d now).state = st := rfl
@[simp] lemma fighter_set_state_until :
    (fighter_set_state f st d now).state_until_ms = now + d := rfl

@[simp] lemma player_reset_state : (player_reset now).state = FighterState.Idle := rfl
@[simp] lemma player_reset_hp : (player_reset now).hp = MAX_HP := rfl
@[simp] lemma player_reset_max_hp : (player_reset now).max_hp = MAX_HP := rfl
@[simp] lemma enemy_reset_state : (enemy_reset idx now).state = FighterState.Idle := rfl
@[simp] lemma enemy_reset_hp : (enemy_reset idx now).hp = (bosses idx).enemy_hp := rfl
@[simp] lemma enemy_reset_max_hp : (enemy_reset idx now).max_hp = (bosses idx).enemy_hp := rfl
@[simp] lemma enemy_reset_pending : (enemy_reset idx now).pending_punch = false := rfl

@[simp] lemma start_boss_player :
    (start_boss a idx rp now).player = if rp then player_reset now else a.player := by
  simp only [start_boss, set_msg]
  split_ifs <;> rfl

@[simp] lemma start_boss_enemy : (start_boss a idx rp now).enemy = enemy_reset idx now := by
  simp only [start_boss, set_msg]
  split_ifs <;> rfl

@[simp] lemma start_boss_boss_index : (start_boss a idx rp now).boss_index = a.boss_index := by
  simp only [start_boss, set_msg]
  split_ifs <;> rfl

@[simp] lemma start_boss_vuln : (start_boss a idx rp now).enemy_vulnerable_until_ms = 0 := by
  simp only [start_boss, set_msg]
  split_ifs <;> rfl

@[simp] lemma start_boss_next_action :
    (start_boss a idx rp now).enemy_next_action_ms = now + 700 := by
  simp only [start_boss, set_msg]
  split_ifs <;> rfl

@[simp] lemma start_boss_next_shuffle :
    (start_boss a idx rp now).enemy_next_shuffle_ms = now + 450 := by
  simp only [start_boss, set_msg]
  split_ifs <;> rfl

@[simp] lemma advance_player :
    (advance_boss_or_win a now).player =
      if a.boss_index < 2 then player_reset now else a.player := by
  simp only [advance_boss_or_win]
  split_ifs <;> simp

@[simp] lemma advance_enemy :
    (advance_boss_or_win a now).enemy =
      if a.boss_index < 2 then enemy_reset (a.boss_index + 1) now else a.enemy := by
  simp only [advance_boss_or_win]
  split_ifs <;> simp

@[simp] lemma advance_boss_index :
    (advance_boss_or_win a now).boss_index =
      if a.boss_index < 2 then a.boss_index + 1 else a.boss_index := by
  simp only [advance_boss_or_win]
  split_ifs <;> simp

@[simp] lemma advance_vuln :
    (advance_boss_or_win a now).enemy_vulnerable_until_ms =
      if a.boss_index < 2 then 0 else a.enemy_vulnerable_until_ms := by
  simp only [advance_boss_or_win]
  split_ifs <;> simp

@[simp] lemma player_can_hit_unfold :
    player_can_hit_enemy_now a now =
      (decide (now < a.enemy_vulnerable_until_ms) ||
        ((bosses a.boss_index).telegraph_hittable &&
          a.enemy.state == FighterState.Telegraph)) := rfl

end FieldLemmas

/-! ### Effect lemmas for the larger operations -/

section EffectLemmas

variable (a : App) (f : Fighter) (dir : Int) (now : Nat) (r : AiRand)

lemma fighter_update_state_state_or :
    (fighter_update_state f now).state = f.state ∨
      (fighter_update_state f now).state = FighterState.Idle := by
  simp only [fighter_update_state]
  split_ifs <;> simp

lemma fighter_update_state_KO_iff :
    (fighter_update_state f now).state = FighterState.KO ↔ f.state = FighterState.KO := by
  simp only [fighter_update_state]
  split_ifs <;> simp_all

lemma fighter_update_state_pending :
    (fighter_update_state f now).pending_punch = f.pending_punch := by
  simp only [fighter_update_state]
  split_ifs <;> rfl

set_option maxHeartbeats 1000000 in
lemma do_player_punch_player_hp :
    (do_player_punch a now).player.hp = a.player.hp ∨
      ((do_player_punch a now).player.hp = MAX_HP ∧
        (do_player_punch a now).player.max_hp = MAX_HP) := by
  simp only [do_player_punch]
  simp only [set_msg_player, fighter_set_state_hp, fighter_set_state_max_hp, advance_player]
  split_ifs <;> rcases Nat.lt_or_ge a.boss_index 2 with hbi | hbi <;>
    simp_all [Nat.not_lt_of_ge] <;> omega

set_option maxHeartbeats 1000000 in
lemma do_player_punch_enemy_hp :
    ((do_player_punch a now).enemy.hp ≤ a.enemy.hp ∧
      (do_player_punch a now).enemy.max_hp = a.enemy.max_hp) ∨
      (do_player_punch a now).enemy.hp = (do_player_punch a now).enemy.max_hp := by
  simp only [do_player_punch]
  simp only [set_msg_enemy, fighter_set_state_hp, fighter_set_state_max_hp, advance_enemy]
  split_ifs <;> rcases Nat.lt_or_ge a.boss_index 2 with hbi | hbi <;>
    simp_all [Nat.not_lt_of_ge] <;> omega

set_option maxHeartbeats 1000000 in
lemma do_player_punch_boss_index :
    (do_player_punch a now).boss_index = a.boss_index ∨
      (a.boss_index < 2 ∧ (do_player_punch a now).boss_index = a.boss_index + 1) := by
  simp only [do_player_punch]
  simp only [set_msg_boss_index, advance_boss_index]
  split_ifs <;> simp_all <;> omega

set_option maxHeartbeats 1000000 in
lemma do_player_punch_vuln :
    (do_player_punch a now).enemy_vulnerable_until_ms = a.enemy_vulnerable_until_ms ∨
      (do_player_punch a now).enemy_vulnerable_until_ms = 0 := by
  simp only [do_player_punch]
  simp only [set_msg_vuln, set_msg_boss_index, advance_vuln]
  split_ifs <;> simp_all [apply_ite]

set_option maxHeartbeats 1000000 in
lemma do_player_punch_hitstun_vuln :
    (do_player_punch a now).enemy.state = FighterState.HitStun →
      (do_player_punch a now).enemy_vulnerable_until_ms = 0 ∨
        ((do_player_punch a now).enemy_vulnerable_until_ms = a.enemy_vulnerable_until_ms ∧
          a.enemy.state = FighterState.HitStun) := by
  simp only [do_player_punch]
  simp only [set_msg_enemy, set_msg_vuln, fighter_set_state_state, advance_enemy, advance_vuln]
  split_ifs <;> simp_all [apply_ite, enemy_reset]

lemma do_enemy_punch_player_hp_le :
    (do_enemy_punch a now).player.hp ≤ a.player.hp := by
  simp only [do_enemy_punch]
  simp only [set_msg_player, fighter_set_state_hp]
  split_ifs <;> simp_all <;> omega

lemma do_enemy_punch_player_max :
    (do_enemy_punch a now).player.max_hp = a.player.max_hp := by
  simp only [do_enemy_punch]
  simp only [set_msg_player, fighter_set_state_max_hp]
  split_ifs <;> simp_all

lemma do_enemy_punch_enemy_hp :
    (do_enemy_punch a now).enemy.hp = a.enemy.hp := by
  simp only [do_enemy_punch]
  simp only [set_msg_enemy, fighter_set_state_hp]
  split_ifs <;> simp_all

lemma do_enemy_punch_enemy_max :
    (do_enemy_punch a now).enemy.max_hp = a.enemy.max_hp := by
  simp only [do_enemy_punch]
  simp only [set_msg_enemy, fighter_set_state_max_hp]
  split_ifs <;> simp_all

lemma do_enemy_punch_boss_index :
    (do_enemy_punch a now).boss_index = a.boss_index := by
  simp only [do_enemy_punch]
  simp only [set_msg_boss_index]
  split_ifs <;> simp_all

lemma do_enemy_punch_vuln :
    (do_enemy_punch a now).enemy_vulnerable_until_ms = a.enemy_vulnerable_until_ms ∨
      (a.player.state = FighterState.Dodging ∧
        (do_enemy_punch a now).enemy.state = FighterState.Punching ∧
        (do_enemy_punch a now).enemy_vulnerable_until_ms =
          now + (bosses a.boss_index).vulnerable_ms) := by
  simp only [do_enemy_punch]
  simp only [set_msg_vuln, set_msg_boss_index, set_msg_enemy, fighter_set_state_state]
  split_ifs <;> simp_all

lemma do_enemy_punch_enemy_state :
    (do_enemy_punch a now).enemy.state = a.enemy.state ∨
      (do_enemy_punch a now).enemy.state = FighterState.Punching := by
  simp only [do_enemy_punch]
  simp only [set_msg_enemy, fighter_set_state_state]
  split_ifs <;> simp_all

lemma start_player_dodge_enemy : (start_player_dodge a dir now).enemy = a.enemy := by
  simp only [start_player_dodge]
  split_ifs <;> rfl

lemma start_player_dodge_player_hp :
    (start_player_dodge a dir now).player.hp = a.player.hp ∧
      (start_player_dodge a dir now).player.max_hp = a.player.max_hp := by
  simp only [start_player_dodge]
  split_ifs <;> simp_all

lemma start_player_dodge_player_state :
    (start_player_dodge a dir now).player.state = a.player.state ∨
      (start_player_dodge a dir now).player.state = FighterState.Dodging := by
  simp only [start_player_dodge]
  split_ifs <;> simp_all

lemma start_player_dodge_rest :
    (start_player_dodge a dir now).boss_index = a.boss_index ∧
      (start_player_dodge a dir now).enemy_vulnerable_until_ms =
        a.enemy_vulnerable_until_ms := by
  simp only [start_player_dodge]
  split_ifs <;> simp_all

lemma enemy_shuffle_player : (enemy_shuffle a now r).player = a.player := by
  simp only [enemy_shuffle]
  split_ifs <;> rfl

lemma enemy_shuffle_enemy_hp :
    (enemy_shuffle a now r).enemy.hp = a.enemy.hp ∧
      (enemy_shuffle a now r).enemy.max_hp = a.enemy.max_hp := by
  simp only [enemy_shuffle]
  split_ifs <;> simp_all

lemma enemy_shuffle_enemy_state :
    (enemy_shuffle a now r).enemy.state = a.enemy.state := by
  simp only [enemy_shuffle]
  split_ifs <;> simp_all

lemma enemy_shuffle_pending :
    (enemy_shuffle a now r).enemy.pending_punch = a.enemy.pending_punch := by
  simp only [enemy_shuffle]
  split_ifs <;> simp_all

lemma enemy_shuffle_rest :
    (enemy_shuffle a now r).boss_index = a.boss_index ∧
      (enemy_shuffle a now r).enemy_vulnerable_until_ms = a.enemy_vulnerable_until_ms ∧
      (enemy_shuffle a now r).enemy_next_action_ms = a.enemy_next_action_ms := by
  simp only [enemy_shuffle]
  split_ifs <;> simp_all

lemma enemy_ai_step_player : (enemy_ai_step a now r).player = a.player := by
  simp only [enemy_ai_step]
  split_ifs <;> simp [enemy_shuffle_player]

lemma enemy_ai_step_enemy_hp :
    (enemy_ai_step a now r).enemy.hp = a.enemy.hp ∧
      (enemy_ai_step a now r).enemy.max_hp = a.enemy.max_hp := by
  simp only [enemy_ai_step]
  split_ifs <;> simp_all [enemy_shuffle_enemy_hp]

lemma enemy_ai_step_rest :
    (enemy_ai_step a now r).boss_index = a.boss_index ∧
      (enemy_ai_step a now r).enemy_vulnerable_until_ms = a.enemy_vulnerable_until_ms := by
  simp only [enemy_ai_step]
  split_ifs <;> simp_all [enemy_shuffle_rest]

lemma enemy_ai_step_enemy_state :
    (enemy_ai_step a now r).enemy.state = a.enemy.state ∨
      ((enemy_ai_step a now r).enemy.state = FighterState.Telegraph ∧
        a.enemy.state = FighterState.Idle) := by
  simp only [enemy_ai_step]
  split_ifs <;> simp_all [enemy_shuffle_enemy_state]

lemma do_enemy_punch_of_player_KO (h : a.player.state = FighterState.KO) :
    do_enemy_punch a now = a := by
  simp [do_enemy_punch, h]

lemma do_enemy_punch_of_enemy_KO (h : a.enemy.state = FighterState.KO) :
    do_enemy_punch a now = a := by
  simp only [do_enemy_punch, h]
  split_ifs <;> simp_all

lemma do_player_punch_of_player_KO (h : a.player.state = FighterState.KO) :
    do_player_punch a now = a := by
  simp [do_player_punch, h]

lemma do_player_punch_of_enemy_KO (h : a.enemy.state = FighterState.KO) :
    do_player_punch a now = a := by
  simp only [do_player_punch, h]
  split_ifs <;> simp_all

lemma start_player_dodge_of_player_KO (h : a.player.state = FighterState.KO) :
    start_player_dodge a dir now = a := by
  simp [start_player_dodge, h]

lemma start_player_dodge_of_enemy_KO (h : a.enemy.state = FighterState.KO) :
    start_player_dodge a dir now = a := by
  simp only [start_player_dodge, h]
  split_ifs <;> simp_all

lemma enemy_ai_step_of_KO
    (h : a.enemy.state = FighterState.KO ∨ a.player.state = FighterState.KO) :
    enemy_ai_step a now r = a := by
  simp [enemy_ai_step, h]

lemma fighter_update_state_of_KO (h : f.state = FighterState.KO) :
    fighter_update_state f now = f := by
  simp [fighter_update_state, h]

lemma reset_game_player : (reset_game a now).player = player_reset now := by
  simp [reset_game]

lemma reset_game_enemy : (reset_game a now).enemy = enemy_reset 0 now := by
  simp [reset_game]

lemma reset_game_boss_index : (reset_game a now).boss_index = 0 := by
  simp [reset_game]

lemma reset_game_vuln : (reset_game a now).enemy_vulnerable_until_ms = 0 := by
  simp [reset_game]

end EffectLemmas

/-! ### hpInv step lemmas -/

section HpLemmas

variable (a : App) (dir : Int) (now : Nat) (r : AiRand)

set_option maxHeartbeats 1000000 in
lemma hpInv_do_player_punch (h : hpInv a) : hpInv (do_player_punch a now) := by
  unfold hpInv at *
  simp only [do_player_punch]
  simp only [set_msg_player, set_msg_enemy, set_msg_boss_index, set_msg_vuln,
    fighter_set_state_hp, fighter_set_state_max_hp, fighter_set_state_state,
    advance_player, advance_enemy, advance_boss_index, advance_vuln]
  split_ifs <;> simp_all [apply_ite] <;> omega

set_option maxHeartbeats 1000000 in
lemma hpInv_do_enemy_punch (h : hpInv a) : hpInv (do_enemy_punch a now) := by
  unfold hpInv at *
  simp only [do_enemy_punch]
  simp only [set_msg_player, set_msg_enemy, set_msg_boss_index, set_msg_vuln,
    fighter_set_state_hp, fighter_set_state_max_hp, fighter_set_state_state]
  split_ifs <;> simp_all [apply_ite] <;> omega

lemma hpInv_start_player_dodge (h : hpInv a) : hpInv (start_player_dodge a dir now) := by
  obtain ⟨hp1, hp2⟩ := start_player_dodge_player_hp a dir now
  have he := start_player_dodge_enemy a dir now
  unfold hpInv at *
  rw [hp1, hp2, he]
  exact h

lemma hpInv_enemy_ai_step (h : hpInv a) : hpInv (enemy_ai_step a now r) := by
  obtain ⟨hp1, hp2⟩ := enemy_ai_step_enemy_hp a now r
  have he := enemy_ai_step_player a now r
  unfold hpInv at *
  rw [hp1, hp2, he]
  exact h

lemma hpInv_reset_game : hpInv (reset_game a now) := by
  unfold hpInv
  rw [reset_game_player, reset_game_enemy]
  simp

lemma hpInv_tick_step (h : hpInv a) : hpInv (tick_step a now) := by
  simp only [tick_step, tick_msg, tick_resolve, tick_fighters]
  have h1 : hpInv { a with
      player := fighter_update_state a.player now,
      enemy := fighter_update_state a.enemy now } := by
    unfold hpInv at *
    simp only [fighter_update_state_hp, fighter_update_state_max_hp]
    exact h
  split_ifs with hc1 hc2 hc3
  case _ | _ =>
    first
      | exact hpInv_do_enemy_punch _ now (by unfold hpInv at *; simpa using h1)
      | exact h1
  all_goals
    first
      | exact hpInv_do_enemy_punch _ now (by unfold hpInv at *; simpa using h1)
      | exact h1
      | (unfold hpInv at *; simpa using h1)

end HpLemmas

/-! ### KO preservation step lemmas -/

section KoLemmas

variable (a : App) (op : Op)

lemma appStep_player_KO (hko : a.player.state = FighterState.KO)
    (hop : ∀ n, op ≠ Op.keyOk n) : (appStep a op).player.state = FighterState.KO := by
  cases op with
  | keyOk n => exact absurd rfl (hop n)
  | keyLeft n => rw [appStep, start_player_dodge_of_player_KO a _ n hko]; exact hko
  | keyRight n => rw [appStep, start_player_dodge_of_player_KO a _ n hko]; exact hko
  | tick n =>
    have hu : (fighter_update_state a.player n).state = FighterState.KO :=
      (fighter_update_state_KO_iff a.player n).mpr hko
    simp only [appStep, tick_step, tick_msg, tick_resolve, tick_fighters]
    split_ifs with hc1 hc2 hc3 <;>
      simp_all [do_enemy_punch_of_player_KO, fighter_update_state_KO_iff]
  | ai n r =>
    rw [appStep, enemy_ai_step_of_KO a n r (Or.inr hko)]
    exact hko

lemma appStep_enemy_KO (hko : a.enemy.state = FighterState.KO)
    (hop : ∀ n, op = Op.keyOk n → a.player.state ≠ FighterState.KO) :
    (appStep a op).enemy.state = FighterState.KO := by
  cases op with
  | keyOk n =>
    have hp := hop n rfl
    simp only [appStep]
    rw [if_neg hp, do_player_punch_of_enemy_KO a n hko]
    exact hko
  | keyLeft n =>
    simp only [appStep]
    rw [start_player_dodge_of_enemy_KO a _ n hko]
    exact hko
  | keyRight n =>
    simp only [appStep]
    rw [start_player_dodge_of_enemy_KO a _ n hko]
    exact hko
  | tick n =>
    have hu := fighter_update_state_of_KO a.enemy n hko
    simp only [appStep, tick_step, tick_msg, tick_resolve, tick_fighters]
    split_ifs with hc1 hc2 hc3 <;> simp_all
  | ai n r =>
    rw [appStep, enemy_ai_step_of_KO a n r (Or.inl hko)]
    exact hko

end KoLemmas

/-! ### Tick-phase lemmas -/

section TickLemmas

variable (a : App) (now : Nat)

@[simp] lemma tick_fighters_player : (tick_fighters a now).player = fighter_update_state a.player now := rfl
@[simp] lemma tick_fighters_enemy : (tick_fighters a now).enemy = fighter_update_state a.enemy now := rfl
@[simp] lemma tick_fighters_boss_index : (tick_fighters a now).boss_index = a.boss_index := rfl
@[simp] lemma tick_fighters_vuln :
    (tick_fighters a now).enemy_vulnerable_until_ms = a.enemy_vulnerable_until_ms := rfl

@[simp] lemma tick_msg_player : (tick_msg a now).player = a.player := by
  simp only [tick_msg]
  split_ifs <;> rfl

@[simp] lemma tick_msg_enemy : (tick_msg a now).enemy = a.enemy := by
  simp only [tick_msg]
  split_ifs <;> rfl

@[simp] lemma tick_msg_boss_index : (tick_msg a now).boss_index = a.boss_index := by
  simp only [tick_msg]
  split_ifs <;> rfl

@[simp] lemma tick_msg_vuln :
    (tick_msg a now).enemy_vulnerable_until_ms = a.enemy_vulnerable_until_ms := by
  simp only [tick_msg]
  split_ifs <;> rfl

lemma tick_resolve_vuln :
    (tick_resolve a now).enemy_vulnerable_until_ms = a.enemy_vulnerable_until_ms ∨
      (a.player.state = FighterState.Dodging ∧
        (tick_resolve a now).enemy.state = FighterState.Punching ∧
        (tick_resolve a now).enemy_vulnerable_until_ms =
          now + (bosses a.boss_index).vulnerable_ms) := by
  simp only [tick_resolve]
  split_ifs with hc
  · rcases do_enemy_punch_vuln { a with enemy := { a.enemy with pending_punch := false } } now
      with hv | ⟨hd, hpu, hv⟩
    · left; simpa using hv
    · right; exact ⟨by simpa using hd, by simpa using hpu, by simpa using hv⟩
  · left; rfl

lemma tick_resolve_player_hp :
    (tick_resolve a now).player.hp ≤ a.player.hp := by
  simp only [tick_resolve]
  split_ifs with hc
  · simpa using do_enemy_punch_player_hp_le
      { a with enemy := { a.enemy with pending_punch := false } } now
  · exact le_refl _

lemma tick_resolve_enemy_hp :
    (tick_resolve a now).enemy.hp = a.enemy.hp ∧
      (tick_resolve a now).enemy.max_hp = a.enemy.max_hp := by
  simp only [tick_resolve]
  split_ifs with hc
  · constructor
    · simpa using do_enemy_punch_enemy_hp
        { a with enemy := { a.enemy with pending_punch := false } } now
    · simpa using do_enemy_punch_enemy_max
        { a with enemy := { a.enemy with pending_punch := false } } now
  · exact ⟨rfl, rfl⟩

lemma tick_resolve_boss_index : (tick_resolve a now).boss_index = a.boss_index := by
  simp only [tick_resolve]
  split_ifs with hc
  · simpa using do_enemy_punch_boss_index
      { a with enemy := { a.enemy with pending_punch := false } } now
  · rfl

lemma tick_resolve_enemy_state :
    (tick_resolve a now).enemy.state = a.enemy.state ∨
      (tick_resolve a now).enemy.state = FighterState.Punching := by
  simp only [tick_resolve]
  split_ifs with hc
  · rcases do_enemy_punch_enemy_state
      { a with enemy := { a.enemy with pending_punch := false } } now with hs | hs
    · left; simpa using hs
    · right; simpa using hs
  · left; rfl

lemma tick_step_vuln :
    (tick_step a now).enemy_vulnerable_until_ms = a.enemy_vulnerable_until_ms ∨
      ((fighter_update_state a.player now).state = FighterState.Dodging ∧
        (tick_step a now).enemy_vulnerable_until_ms =
          now + (bosses a.boss_index).vulnerable_ms) := by
  simp only [tick_step, tick_msg_vuln]
  rcases tick_resolve_vuln (tick_fighters a now) now with hv | ⟨hd, hpu, hv⟩
  · left
    simpa using hv
  · right
    exact ⟨by simpa using hd, by simpa using hv⟩

lemma tick_step_player_hp :
    (tick_step a now).player.hp ≤ a.player.hp := by
  simp only [tick_step, tick_msg_player]
  have := tick_resolve_player_hp (tick_fighters a now) now
  simpa [fighter_update_state_hp] using this

lemma tick_step_enemy_hp :
    (tick_step a now).enemy.hp = a.enemy.hp ∧
      (tick_step a now).enemy.max_hp = a.enemy.max_hp := by
  simp only [tick_step, tick_msg_enemy]
  have h1 := tick_resolve_enemy_hp (tick_fighters a now) now
  constructor
  · rw [h1.1]
    simp [fighter_update_state_hp]
  · rw [h1.2]
    simp [fighter_update_state_max_hp]

lemma tick_step_player_max :
    (tick_step a now).player.max_hp = a.player.max_hp := by
  simp only [tick_step, tick_msg_player]
  have h1 : (tick_resolve (tick_fighters a now) now).player.max_hp =
      (tick_fighters a now).player.max_hp := by
    simp only [tick_resolve]
    split_ifs with hc
    · simpa using do_enemy_punch_player_max
        { tick_fighters a now with
          enemy := { (tick_fighters a now).enemy with pending_punch := false } } now
    · rfl
  rw [h1]
  simp [fighter_update_state_max_hp]

lemma tick_step_boss_index : (tick_step a now).boss_index = a.boss_index := by
  simp only [tick_step, tick_msg_boss_index]
  rw [tick_resolve_boss_index]
  rfl

lemma tick_step_hitstun_vuln
    (hinv : a.enemy.state = FighterState.HitStun → a.enemy_vulnerable_until_ms = 0) :
    (tick_step a now).enemy.state = FighterState.HitStun →
      (tick_step a now).enemy_vulnerable_until_ms = 0 := by
  intro hs
  simp only [tick_step, tick_msg_enemy, tick_msg_vuln] at hs ⊢
  rcases tick_resolve_vuln (tick_fighters a now) now with hv | ⟨hd, hpu, hv⟩
  · rw [hv]
    rcases tick_resolve_enemy_state (tick_fighters a now) now with h1 | h1
    · rw [h1] at hs
      have h2 : (fighter_update_state a.enemy now).state = FighterState.HitStun := by
        simpa using hs
      rcases fighter_update_state_state_or a.enemy now with h3 | h3
      · rw [h2] at h3
        have hw := hinv h3.symm
        simpa using hw
      · rw [h2] at h3
        exact absurd h3.symm (by decide)
    · rw [h1] at hs
      exact absurd hs (by decide)
  · rw [hpu] at hs
    exact absurd hs (by decide)

end TickLemmas

lemma appRun_player_KO (a : App) (ops : List Op)
    (hops : ∀ n, Op.keyOk n ∉ ops) (hko : a.player.state = FighterState.KO) :
    (appRun a ops).player.state = FighterState.KO := by
  induction ops generalizing a with
  | nil => exact hko
  | cons op rest ih =>
    have h1 : ∀ n, op ≠ Op.keyOk n := by
      intro n hn
      exact hops n (by rw [hn]; exact List.mem_cons_self _ _)
    have h2 : ∀ n, Op.keyOk n ∉ rest := by
      intro n hn
      exact hops n (List.mem_cons_of_mem _ hn)
    have hstep := appStep_player_KO a op hko h1
    simpa [appRun, List.foldl_cons] using ih (appStep a op) h2 hstep

/-! ## The claims -/

/-- **C2.** For both fighters, after every main-loop operation the HP
invariant `0 ≤ hp ≤ max_hp` holds (`0 ≤ hp` is inherent to `Nat`; the code
saturates the subtraction at 0), and HP never increases except through a
boss-start reset, which sets it to the then-current full `max_hp`. -/
theorem claim2_hp_invariant (a : App) (op : Op) (h : hpInv a) :
    hpInv (appStep a op) ∧
    ((appStep a op).player.hp > a.player.hp →
      (appStep a op).player.hp = (appStep a op).player.max_hp) ∧
    ((appStep a op).enemy.hp > a.enemy.hp →
      (appStep a op).enemy.hp = (appStep a op).enemy.max_hp) := by
  cases op with
  | keyOk n =>
    simp only [appStep]
    split_ifs with hko
    · refine ⟨hpInv_reset_game a n, ?_, ?_⟩
      · intro _
        rw [reset_game_player]
        rfl
      · intro _
        rw [reset_game_enemy]
        rfl
    · refine ⟨hpInv_do_player_punch a n h, ?_, ?_⟩
      · intro hgt
        rcases do_player_punch_player_hp a n with h1 | ⟨h1, h2⟩
        · omega
        · rw [h1, h2]
      · intro hgt
        rcases do_player_punch_enemy_hp a n with ⟨h1, _⟩ | h1
        · omega
        · exact h1
  | keyLeft n =>
    obtain ⟨hp1, hp2⟩ := start_player_dodge_player_hp a (-1) n
    have he := start_player_dodge_enemy a (-1) n
    simp only [appStep]
    refine ⟨hpInv_start_player_dodge a _ n h, ?_, ?_⟩
    · rw [hp1]
      omega
    · rw [he]
      omega
  | keyRight n =>
    obtain ⟨hp1, hp2⟩ := start_player_dodge_player_hp a 1 n
    have he := start_player_dodge_enemy a 1 n
    simp only [appStep]
    refine ⟨hpInv_start_player_dodge a _ n h, ?_, ?_⟩
    · rw [hp1]
      omega
    · rw [he]
      omega
  | tick n =>
    simp only [appStep]
    refine ⟨hpInv_tick_step a n h, ?_, ?_⟩
    · have := tick_step_player_hp a n
      omega
    · have := (tick_step_enemy_hp a n).1
      omega
  | ai n r =>
    obtain ⟨h1, h2⟩ := enemy_ai_step_enemy_hp a n r
    have h3 := enemy_ai_step_player a n r
    simp only [appStep]
    refine ⟨hpInv_enemy_ai_step a n r h, ?_, ?_⟩
    · rw [h3]
      omega
    · rw [h1]
      omega

/-- Witness for C2 at a concrete boss-1 state. -/
theorem claim2_hp_invariant_witness : hpInv (appStep app0 (Op.tick 0)) :=
  (claim2_hp_invariant app0 (Op.tick 0) (by decide)).1

/-- **C3.** KO is terminal: no operation other than a `Confirm` (OK) input
moves a fighter out of `KO` — in particular no sequence of non-Confirm
operations does — and when the player is KO, a Confirm input performs the
full match reset: boss index 0, both fighters reset, player HP restored
to `MAX_HP`. -/
theorem claim3_ko_terminal (a : App) (op : Op) (ops : List Op) :
    (a.player.state = FighterState.KO →
      (appStep a op).player.state = FighterState.KO ∨ ∃ n, op = Op.keyOk n) ∧
    (a.enemy.state = FighterState.KO →
      (appStep a op).enemy.state = FighterState.KO ∨
        ∃ n, op = Op.keyOk n ∧ a.player.state = FighterState.KO) ∧
    ((∀ n, Op.keyOk n ∉ ops) → a.player.state = FighterState.KO →
      (appRun a ops).player.state = FighterState.KO) ∧
    (∀ n, a.player.state = FighterState.KO →
      appStep a (Op.keyOk n) = reset_game a n ∧
      (appStep a (Op.keyOk n)).boss_index = 0 ∧
      (appStep a (Op.keyOk n)).player.hp = MAX_HP ∧
      (appStep a (Op.keyOk n)).player.state = FighterState.Idle ∧
      (appStep a (Op.keyOk n)).enemy.hp = (bosses 0).enemy_hp ∧
      (appStep a (Op.keyOk n)).enemy.state = FighterState.Idle) := by
  refine ⟨?_, ?_, ?_, ?_⟩
  · intro hko
    by_cases hop : ∃ n, op = Op.keyOk n
    · exact Or.inr hop
    · push_neg at hop
      exact Or.inl (appStep_player_KO a op hko hop)
  · intro hko
    by_cases hcase : ∃ n, op = Op.keyOk n ∧ a.player.state = FighterState.KO
    · exact Or.inr hcase
    · refine Or.inl (appStep_enemy_KO a op hko ?_)
      intro n hn hPko
      exact hcase ⟨n, hn, hPko⟩
  · exact fun h1 h2 => appRun_player_KO a ops h1 h2
  · intro n hko
    have hstep : appStep a (Op.keyOk n) = reset_game a n := by
      simp [appStep, hko]
    rw [hstep]
    refine ⟨rfl, reset_game_boss_index a n, ?_, ?_, ?_, ?_⟩
    · rw [reset_game_player]
      rfl
    · rw [reset_game_player]
      rfl
    · rw [reset_game_enemy]
      rfl
    · rw [reset_game_enemy]
      rfl

/-- Witness for C3: the KO persists through a tick, and a Confirm input
resets the match. -/
theorem claim3_ko_terminal_witness :
    (appStep appKO (Op.tick 3)).player.state = FighterState.KO ∧
      (appStep appKO (Op.keyOk 5)).boss_index = 0 ∧
      (appStep appKO (Op.keyOk 5)).player.hp = MAX_HP := by
  refine ⟨?_, ?_, ?_⟩
  · rcases (claim3_ko_terminal appKO (Op.tick 3) []).1 (by decide) with h | ⟨n, hn⟩
    · exact h
    · cases hn
  · exact ((claim3_ko_terminal appKO (Op.keyOk 5) []).2.2.2 5 (by decide)).2.1
  · exact ((claim3_ko_terminal appKO (Op.keyOk 5) []).2.2.2 5 (by decide)).2.2.1

/-- **C9.** A Confirm/OK input performs a full match reset exactly when the
player is KO; otherwise it is a punch attempt. After a victory (enemy KO
with the player alive) the punch attempt and both dodges are no-ops, so no
input restarts the game. -/
theorem claim9_confirm_reset (a : App) (n : Nat) :
    (a.player.state = FighterState.KO →
      appStep a (Op.keyOk n) = reset_game a n ∧
      (appStep a (Op.keyOk n)).boss_index = 0 ∧
      (appStep a (Op.keyOk n)).player.hp = MAX_HP) ∧
    (a.player.state ≠ FighterState.KO →
      appStep a (Op.keyOk n) = do_player_punch a n) ∧
    (a.player.state ≠ FighterState.KO → a.enemy.state = FighterState.KO →
      appStep a (Op.keyOk n) = a ∧ appStep a (Op.keyLeft n) = a ∧
        appStep a (Op.keyRight n) = a) := by
  refine ⟨?_, ?_, ?_⟩
  · intro hko
    have hstep : appStep a (Op.keyOk n) = reset_game a n := by
      simp [appStep, hko]
    rw [hstep]
    refine ⟨rfl, reset_game_boss_index a n, ?_⟩
    rw [reset_game_player]
    rfl
  · intro hko
    simp [appStep, hko]
  · intro hpko heko
    refine ⟨?_, ?_, ?_⟩
    · rw [show appStep a (Op.keyOk n) = do_player_punch a n by simp [appStep, hpko]]
      exact do_player_punch_of_enemy_KO a n heko
    · exact start_player_dodge_of_enemy_KO a _ n heko
    · exact start_player_dodge_of_enemy_KO a _ n heko

set_option maxHeartbeats 1000000 in
/-- Helper for C6: an accepted player punch either commits the player to
`Punching` for the boss's punch duration, or the punch KO'd the enemy at
boss index < 2 and the boss-start reset ran. -/
lemma do_player_punch_commits (a : App) (now : Nat)
    (h1 : a.player.state = FighterState.Idle) (h2 : a.enemy.state ≠ FighterState.KO) :
    (do_player_punch a now).player =
      fighter_set_state a.player FighterState.Punching (bosses a.boss_index).punch_ms now ∨
    (a.boss_index < 2 ∧ (do_player_punch a now).boss_index = a.boss_index + 1) := by
  simp only [do_player_punch]
  simp only [set_msg_player, set_msg_boss_index, advance_player, advance_boss_index]
  split_ifs <;> rcases Nat.lt_or_ge a.boss_index 2 with hbi | hbi <;>
    simp_all [Nat.not_lt_of_ge]

/-- **C1 (counterexample).** The claim says a boss advance leaves the
player's HP untouched; starting from boss 0 with the player at 3 HP, the
advance restores the player to full HP (`start_boss` is called with
`reset_player_hp = true`). -/
theorem claim1_counterexample :
    appC1.boss_index < 2 ∧ appC1.player.hp = 3 ∧
      (advance_boss_or_win appC1 5).player.hp ≠ appC1.player.hp ∧
      (advance_boss_or_win appC1 5).player.hp = MAX_HP := by decide

/-- **C1 (amended).** When the enemy is KO'd with boss index < 2, the boss
advance increments the index and resets the enemy fighter (full HP, home
position, Idle state, fresh AI timers) — and it also fully resets the
player: HP restored to `MAX_HP`, home position, Idle state (per-boss
healing does occur). -/
theorem claim1_amended (a : App) (now : Nat) (h : a.boss_index < 2) :
    (advance_boss_or_win a now).boss_index = a.boss_index + 1 ∧
    (advance_boss_or_win a now).enemy = enemy_reset (a.boss_index + 1) now ∧
    (advance_boss_or_win a now).enemy.hp = (bosses (a.boss_index + 1)).enemy_hp ∧
    (advance_boss_or_win a now).enemy.state = FighterState.Idle ∧
    (advance_boss_or_win a now).enemy_vulnerable_until_ms = 0 ∧
    (advance_boss_or_win a now).enemy_next_action_ms = now + 700 ∧
    (advance_boss_or_win a now).enemy_next_shuffle_ms = now + 450 ∧
    (advance_boss_or_win a now).player = player_reset now ∧
    (advance_boss_or_win a now).player.hp = MAX_HP ∧
    (advance_boss_or_win a now).player.state = FighterState.Idle := by
  simp only [advance_boss_or_win, if_pos h]
  simp [h]

/-- Witness for the amended C1. -/
theorem claim1_amended_witness :
    (advance_boss_or_win appC1 5).boss_index = appC1.boss_index + 1 :=
  (claim1_amended appC1 5 (by decide)).1

/-- **C6 (counterexample).** The claim says every accepted punch attempt
leaves the attacker in `Punching`; a player punch that KOs boss 0
triggers the boss advance, whose `start_boss` reset puts the player back
to `Idle` in the same step. -/
theorem claim6_counterexample :
    appC6.player.state = FighterState.Idle ∧
      appC6.player.state ≠ FighterState.KO ∧
      appC6.enemy.state ≠ FighterState.KO ∧
      (do_player_punch appC6 0).player.state ≠ FighterState.Punching ∧
      (do_player_punch appC6 0).player.state = FighterState.Idle := by decide

/-- **C6 (amended).** Every accepted punch attempt sets the attacker to
`Punching` with deadline `punch_ms`, even when it deals no damage; the one
exception is a player punch that KOs the enemy at boss index < 2, where
the ensuing boss-start reset returns the player to `Idle` within the same
step. The enemy attacker is never reset by its own punch. -/
theorem claim6_amended (a : App) (now : Nat) :
    (a.player.state ≠ FighterState.KO → a.enemy.state = FighterState.Idle →
      (do_enemy_punch a now).enemy.state = FighterState.Punching ∧
      (do_enemy_punch a now).enemy.state_until_ms =
        now + (bosses a.boss_index).punch_ms) ∧
    (a.player.state = FighterState.Idle → a.enemy.state ≠ FighterState.KO →
      (do_player_punch a now).boss_index = a.boss_index →
      (do_player_punch a now).player.state = FighterState.Punching ∧
      (do_player_punch a now).player.state_until_ms =
        now + (bosses a.boss_index).punch_ms) := by
  constructor
  · intro h1 h2
    simp only [do_enemy_punch]
    split_ifs <;> simp_all
  · intro h1 h2 h3
    rcases do_player_punch_commits a now h1 h2 with hc | ⟨hlt, hc⟩
    · rw [hc]
      exact ⟨rfl, rfl⟩
    · omega

/-- Witness for the amended C6: a whiffed in-range punch (no open window)
still commits the player to the full punch duration. -/
theorem claim6_amended_witness :
    (do_player_punch app0 7).player.state = FighterState.Punching ∧
      (do_player_punch app0 7).player.state_until_ms =
        7 + (bosses app0.boss_index).punch_ms :=
  (claim6_amended app0 7).2 (by decide) (by decide) (by decide)

/-- **C7.** The boss index starts at 0 (any reset returns it to 0), never
exceeds 2, changes by at most +1 per operation (+1 exactly on an enemy KO
at index < 2), and defeating the boss at index 2 yields the terminal
victory banner with no index change. -/
theorem claim7_boss_progression (a : App) (op : Op) (now : Nat)
    (h2 : a.boss_index ≤ 2) :
    (appStep a op).boss_index ≤ 2 ∧
    ((appStep a op).boss_index = a.boss_index ∨
      ((appStep a op).boss_index = a.boss_index + 1 ∧ a.boss_index < 2) ∨
      ((appStep a op).boss_index = 0 ∧
        ∃ n, op = Op.keyOk n ∧ a.player.state = FighterState.KO)) ∧
    ((advance_boss_or_win a now).boss_index =
      if a.boss_index < 2 then a.boss_index + 1 else a.boss_index) ∧
    (2 ≤ a.boss_index →
      advance_boss_or_win a now = set_msg a Msg.youWin MSG_MS now ∧
      (advance_boss_or_win a now).msg = Msg.youWin ∧
      (advance_boss_or_win a now).boss_index = a.boss_index) ∧
    (∀ m, (reset_game a m).boss_index = 0) := by
  have hstep : (appStep a op).boss_index = a.boss_index ∨
      ((appStep a op).boss_index = a.boss_index + 1 ∧ a.boss_index < 2) ∨
      ((appStep a op).boss_index = 0 ∧
        ∃ n, op = Op.keyOk n ∧ a.player.state = FighterState.KO) := by
    cases op with
    | keyOk n =>
      simp only [appStep]
      split_ifs with hko
      · right; right
        exact ⟨reset_game_boss_index a n, n, rfl, hko⟩
      · rcases do_player_punch_boss_index a n with h | ⟨hlt, h⟩
        · left; exact h
        · right; left; exact ⟨h, hlt⟩
    | keyLeft n => exact Or.inl (start_player_dodge_rest a (-1) n).1
    | keyRight n => exact Or.inl (start_player_dodge_rest a 1 n).1
    | tick n => exact Or.inl (tick_step_boss_index a n)
    | ai n r => exact Or.inl (enemy_ai_step_rest a n r).1
  refine ⟨?_, hstep, advance_boss_index a now, ?_, fun m => reset_game_boss_index a m⟩
  · rcases hstep with h | ⟨h, hlt⟩ | ⟨h, _⟩ <;> omega
  · intro hge
    have hnl : ¬ a.boss_index < 2 := by omega
    refine ⟨?_, ?_, ?_⟩
    · simp [advance_boss_or_win, hnl]
    · simp [advance_boss_or_win, hnl]
    · rw [advance_boss_index, if_neg hnl]

/-- Witness for C7 at a concrete boss-1 state. -/
theorem claim7_boss_progression_witness :
    (advance_boss_or_win app0 0).boss_index =
      if app0.boss_index < 2 then app0.boss_index + 1 else app0.boss_index :=
  (claim7_boss_progression app0 (Op.tick 0) 0 (by decide)).2.2.1

/-- Witness for C9: after the win, Confirm and the dodges change nothing. -/
theorem claim9_confirm_reset_witness :
    appStep appWin (Op.keyOk 9) = appWin ∧ appStep appWin (Op.keyLeft 9) = appWin :=
  ⟨((claim9_confirm_reset appWin 9).2.2 (by decide) (by decide)).1,
    ((claim9_confirm_reset appWin 9).2.2 (by decide) (by decide)).2.1⟩

set_option maxHeartbeats 1000000 in
/-- **C4.** An in-range player punch at a hittable (non-KO, non-HitStun)
enemy deals damage iff the enemy is inside its post-dodge vulnerability
window or the boss's `telegraph_hittable` flag is set with the enemy in
`Telegraph`; a punch during the window always lands regardless of the
flag (whatever state the enemy is in), and otherwise it is blocked with
no damage and no enemy state change. (Stated for non-lethal punches; a
lethal punch triggers the boss advance covered by C1/C7.) -/
theorem claim4_hit_determination (a : App) (now : Nat)
    (hpIdle : a.player.state = FighterState.Idle)
    (heKO : a.enemy.state ≠ FighterState.KO)
    (heHS : a.enemy.state ≠ FighterState.HitStun)
    (hrange : abs16 (a.player.x + FIGHTER_W / 2 - (a.enemy.x + FIGHTER_W / 2)) ≤ PUNCH_RANGE)
    (hnl : (bosses a.boss_index).player_damage < a.enemy.hp) :
    ((do_player_punch a now).enemy.hp < a.enemy.hp ↔
      (enemy_is_vulnerable a now = true ∨
        ((bosses a.boss_index).telegraph_hittable = true ∧
          a.enemy.state = FighterState.Telegraph))) ∧
    (enemy_is_vulnerable a now = true →
      (do_player_punch a now).enemy.state = FighterState.HitStun ∧
      (do_player_punch a now).enemy.hp =
        a.enemy.hp - (bosses a.boss_index).player_damage ∧
      (do_player_punch a now).enemy_vulnerable_until_ms = 0) ∧
    (¬ (enemy_is_vulnerable a now = true ∨
        ((bosses a.boss_index).telegraph_hittable = true ∧
          a.enemy.state = FighterState.Telegraph)) →
      (do_player_punch a now).enemy = a.enemy ∧
      (do_player_punch a now).msg = Msg.blockBanner) := by
  have hdmg := bosses_player_damage_pos a.boss_index
  simp only [do_player_punch, enemy_is_vulnerable]
  simp only [player_can_hit_unfold, set_msg_enemy, set_msg_vuln, set_msg_msg,
    fighter_set_state_hp, fighter_set_state_state, fighter_set_state_x,
    advance_enemy, advance_vuln]
  split_ifs <;> simp_all <;> omega

/-- Witness for C4: punching through an open window on boss 1 lands, and
punching boss 1 mid-telegraph (no window) also deals damage. -/
theorem claim4_hit_determination_witness :
    ((do_player_punch appC4 0).enemy.state = FighterState.HitStun ∧
      (do_player_punch appC4 0).enemy.hp =
        appC4.enemy.hp - (bosses appC4.boss_index).player_damage ∧
      (do_player_punch appC4 0).enemy_vulnerable_until_ms = 0) ∧
    (do_player_punch appC4T 0).enemy.hp < appC4T.enemy.hp :=
  ⟨(claim4_hit_determination appC4 0 (by decide) (by decide) (by decide)
      (by decide) (by decide)).2.1 (by decide),
    ((claim4_hit_determination appC4T 0 (by decide) (by decide) (by decide)
      (by decide) (by decide)).1).mpr (Or.inr (by decide))⟩

set_option maxHeartbeats 1000000 in
/-- **C5.** If the player is `Dodging` when the enemy's pending punch
resolves, the player takes no damage and a vulnerability window opens for
exactly the boss's `vulnerable_ms` from now; and across all main-loop
operations, the resolved-while-dodging enemy punch (inside a tick) is the
only way the window is ever set to a new non-zero deadline. -/
theorem claim5_dodge_opens_window (a : App) (now : Nat)
    (hd : a.player.state = FighterState.Dodging)
    (he : a.enemy.state = FighterState.Idle) :
    ((do_enemy_punch a now).player.hp = a.player.hp ∧
      (do_enemy_punch a now).player.state = FighterState.Dodging ∧
      (do_enemy_punch a now).enemy_vulnerable_until_ms =
        now + (bosses a.boss_index).vulnerable_ms ∧
      (do_enemy_punch a now).msg = Msg.openBanner ∧
      (do_enemy_punch a now).enemy.state = FighterState.Punching) ∧
    (∀ (b : App) (op : Op),
      (appStep b op).enemy_vulnerable_until_ms = b.enemy_vulnerable_until_ms ∨
      (appStep b op).enemy_vulnerable_until_ms = 0 ∨
      ∃ n, op = Op.tick n ∧
        (fighter_update_state b.player n).state = FighterState.Dodging ∧
        (appStep b op).enemy_vulnerable_until_ms =
          n + (bosses b.boss_index).vulnerable_ms) := by
  constructor
  · simp only [do_enemy_punch]
    split_ifs <;> simp_all
  · intro b op
    cases op with
    | keyOk n =>
      simp only [appStep]
      split_ifs with hko
      · right; left
        exact reset_game_vuln b n
      · rcases do_player_punch_vuln b n with h | h
        · left; exact h
        · right; left; exact h
    | keyLeft n => exact Or.inl (start_player_dodge_rest b (-1) n).2
    | keyRight n => exact Or.inl (start_player_dodge_rest b 1 n).2
    | tick n =>
      rcases tick_step_vuln b n with h | ⟨h1, h2⟩
      · left; exact h
      · right; right
        exact ⟨n, rfl, h1, h2⟩
    | ai n r => exact Or.inl (enemy_ai_step_rest b n r).2

/-- Witness for C5: dodging through boss 1's punch opens a 1200ms window. -/
theorem claim5_dodge_opens_window_witness :
    (do_enemy_punch appC5 100).player.hp = appC5.player.hp ∧
      (do_enemy_punch appC5 100).enemy_vulnerable_until_ms =
        100 + (bosses appC5.boss_index).vulnerable_ms :=
  ⟨((claim5_dodge_opens_window appC5 100 (by decide) (by decide)).1).1,
    ((claim5_dodge_opens_window appC5 100 (by decide) (by decide)).1).2.2.1⟩

set_option maxHeartbeats 1000000 in
/-- **C8.** When the AI action timer fires with the enemy Idle (and neither
fighter KO; here additionally the shuffle timer not yet due, so the
decision distance is the current one): the enemy is near iff the
center-to-center distance is ≤ `PUNCH_RANGE`+2; the roll is taken against
the boss's near/far chance; on success the enemy telegraphs for
`telegraph_ms` with `pending_punch` set and flash reset, and the next
decision comes `telegraph_ms + ai_base_delay + (delay % ai_rand_delay)`
from now; on failure nothing changes except the next decision moving to
`300 + (delay % 500)` from now. -/
theorem claim8_ai_decision (a : App) (now : Nat) (r : AiRand)
    (hpko : a.player.state ≠ FighterState.KO)
    (hidle : a.enemy.state = FighterState.Idle)
    (hact : a.enemy_next_action_ms ≤ now)
    (hshuf : now < a.enemy_next_shuffle_ms) :
    (r.roll % 100 <
        (if abs16 (a.player.x + FIGHTER_W / 2 - (a.enemy.x + FIGHTER_W / 2)) ≤
            PUNCH_RANGE + 2
          then (bosses a.boss_index).punch_chance_near
          else (bosses a.boss_index).punch_chance_far) →
      enemy_ai_step a now r = { a with
        enemy := { a.enemy with
          flash := false, flash_next_ms := now + 80, pending_punch := true,
          state := FighterState.Telegraph,
          state_until_ms := now + (bosses a.boss_index).telegraph_ms },
        enemy_next_action_ms := now + (bosses a.boss_index).telegraph_ms +
          (bosses a.boss_index).ai_base_delay +
          r.delay % (bosses a.boss_index).ai_rand_delay }) ∧
    (¬ r.roll % 100 <
        (if abs16 (a.player.x + FIGHTER_W / 2 - (a.enemy.x + FIGHTER_W / 2)) ≤
            PUNCH_RANGE + 2
          then (bosses a.boss_index).punch_chance_near
          else (bosses a.boss_index).punch_chance_far) →
      enemy_ai_step a now r =
        { a with enemy_next_action_ms := now + 300 + r.delay % 500 }) := by
  have hsh : enemy_shuffle a now r = a := by
    simp only [enemy_shuffle]
    rw [if_neg]
    intro hcond
    omega
  have hko : ¬ (a.enemy.state = FighterState.KO ∨
      a.player.state = FighterState.KO) := by
    rw [hidle]
    simp [hpko]
  simp only [enemy_ai_step]
  rw [if_neg hko, hsh,
    if_neg (show ¬ now < a.enemy_next_action_ms by omega), if_pos hidle]
  by_cases hnear : abs16 (a.player.x + FIGHTER_W / 2 - (a.enemy.x + FIGHTER_W / 2)) ≤
      PUNCH_RANGE + 2
  · simp only [if_pos hnear]
    refine ⟨fun hroll => ?_, fun hroll => ?_⟩
    · rw [if_pos hroll]
      rfl
    · rw [if_neg hroll]
  · simp only [if_neg hnear]
    refine ⟨fun hroll => ?_, fun hroll => ?_⟩
    · rw [if_pos hroll]
      rfl
    · rw [if_neg hroll]

/-- Witness for C8: at distance 0 (near) a roll of 0 beats boss 1's 40%
near chance and starts a telegraph. -/
theorem claim8_ai_decision_witness :
    enemy_ai_step appC8 100 { gate := 1, dir := 0, shuffleDelay := 0, roll := 0, delay := 13 } =
      { appC8 with
        enemy := { appC8.enemy with
          flash := false
          flash_next_ms := 180
          pending_punch := true
          state := FighterState.Telegraph
          state_until_ms := 100 + (bosses appC8.boss_index).telegraph_ms }
        enemy_next_action_ms := 100 + (bosses appC8.boss_index).telegraph_ms +
          (bosses appC8.boss_index).ai_base_delay +
          13 % (bosses appC8.boss_index).ai_rand_delay } := by
  have h := (claim8_ai_decision appC8 100
    { gate := 1, dir := 0, shuffleDelay := 0, roll := 0, delay := 13 }
    (by decide) (by decide) (by decide) (by decide)).1 (by decide)
  rw [h]

set_option maxHeartbeats 1000000 in
/-- **C10.** Whenever the enemy is in `HitStun` the vulnerability window is
cleared (deadline 0, hence inactive at every clock value): a successful
player hit zeroes the window in the same step it forces `HitStun`, the
window is only ever opened while the enemy enters `Punching`, and so the
property is an invariant of every main-loop operation — two consecutive
punches cannot both land through one window. -/
theorem claim10_hitstun_no_window (a : App) (op : Op) (now : Nat) :
    ((a.enemy.state = FighterState.HitStun → a.enemy_vulnerable_until_ms = 0) →
      (appStep a op).enemy.state = FighterState.HitStun →
      (appStep a op).enemy_vulnerable_until_ms = 0) ∧
    (a.player.state = FighterState.Idle →
      a.enemy.state ≠ FighterState.KO → a.enemy.state ≠ FighterState.HitStun →
      player_can_hit_enemy_now a now = true →
      abs16 (a.player.x + FIGHTER_W / 2 - (a.enemy.x + FIGHTER_W / 2)) ≤ PUNCH_RANGE →
      (bosses a.boss_index).player_damage < a.enemy.hp →
      (do_player_punch a now).enemy.state = FighterState.HitStun ∧
      (do_player_punch a now).enemy_vulnerable_until_ms = 0) := by
  constructor
  · intro hinv hs
    cases op with
    | keyOk n =>
      simp only [appStep] at hs ⊢
      split_ifs at hs ⊢ with hko
      · exfalso
        rw [reset_game_enemy, enemy_reset_state] at hs
        exact absurd hs (by decide)
      · rcases do_player_punch_hitstun_vuln a n hs with h | ⟨h1, h2⟩
        · exact h
        · rw [h1]
          exact hinv h2
    | keyLeft n =>
      simp only [appStep] at hs ⊢
      rw [start_player_dodge_enemy] at hs
      rw [(start_player_dodge_rest a (-1) n).2]
      exact hinv hs
    | keyRight n =>
      simp only [appStep] at hs ⊢
      rw [start_player_dodge_enemy] at hs
      rw [(start_player_dodge_rest a 1 n).2]
      exact hinv hs
    | tick n =>
      simp only [appStep] at hs ⊢
      exact tick_step_hitstun_vuln a n hinv hs
    | ai n r =>
      simp only [appStep] at hs ⊢
      rw [(enemy_ai_step_rest a n r).2]
      rcases enemy_ai_step_enemy_state a n r with h1 | ⟨h1, _⟩
      · rw [h1] at hs
        exact hinv hs
      · rw [h1] at hs
        exact absurd hs (by decide)
  · intro h1 h2 h3 hcan hrange hnl
    have hdmg := bosses_player_damage_pos a.boss_index
    simp only [player_can_hit_unfold] at hcan
    simp only [do_player_punch]
    simp only [player_can_hit_unfold, set_msg_enemy, set_msg_vuln,
      fighter_set_state_hp, fighter_set_state_state, fighter_set_state_x,
      advance_enemy, advance_vuln]
    split_ifs <;> simp_all <;> omega

/-- Witness for C10: the invariant is preserved through a tick of `appC4`,
and the landing punch there clears the window as it stuns. -/
theorem claim10_hitstun_no_window_witness :
    ((appStep appC4 (Op.tick 0)).enemy.state = FighterState.HitStun →
      (appStep appC4 (Op.tick 0)).enemy_vulnerable_until_ms = 0) ∧
      (do_player_punch appC4 0).enemy.state = FighterState.HitStun ∧
      (do_player_punch appC4 0).enemy_vulnerable_until_ms = 0 :=
  ⟨(claim10_hitstun_no_window appC4 (Op.tick 0) 0).1 (by decide),
    (claim10_hitstun_no_window appC4 (Op.tick 0) 0).2 (by decide) (by decide)
      (by decide) (by decide) (by decide) (by decide)⟩

end BoxFlipper
